import Mathlib

/-!
Shallow embedding of `boj-tool` (`src/boj/__init__.py`), a CLI client for the
BOJ judge.  Pure string-processing functions (`get_lang_code`, `check_finished`,
`convert_msg`, the `stats` row formatter) are translated directly; the stateful
parts (`login`, the `print_result` polling loop) are modelled as explicit state
passing, with Python exceptions embedded as `Option`/`none`.
-/

namespace Boj

/-- Python's `sub in s` substring test on lists of characters:
`pat` occurs contiguously in `s`. -/
def listContainsSub (pat : List Char) (s : List Char) : Bool :=
  match s with
  | [] => pat.isEmpty
  | _ :: t => pat.isPrefixOf s || listContainsSub pat t

/-- Python's `pat in s` substring containment for strings. -/
def strIn (pat s : String) : Bool :=
  listContainsSub pat.data s.data

/-- Python's `str.lower()` (character-wise, as used on ASCII compiler
names). -/
def strLower (s : String) : String :=
  String.mk (s.data.map Char.toLower)

/-- One section of the INI configuration: optional `Compiler` and `Version`
keys (`config[lang]['Compiler']`, `config[lang]['Version']`). -/
structure LangSection where
  compiler : Option String
  version : Option String
deriving DecidableEq, Repr

/-- The configuration as consulted by `get_lang_code`: the four language
sections it ever reads, each possibly absent (`'C++' in config`, ...). -/
structure Config where
  cpp : Option LangSection
  c : Option LangSection
  python : Option LangSection
  java : Option LangSection
deriving DecidableEq, Repr

/-- Section access `config[lang]` for the four section names used by the
program; `none` models a `KeyError`. -/
def lookupSection (cfg : Config) (lang : String) : Option LangSection :=
  if lang = "C++" then cfg.cpp
  else if lang = "C" then cfg.c
  else if lang = "Python" then cfg.python
  else if lang = "Java" then cfg.java
  else none

/-- Model of `get_compiler(lang, default)`: reads `config[lang]['Compiler']`,
falling back to `default` when the key is absent.  `none` models the
`KeyError` raised when the section itself is absent. -/
def get_compiler (cfg : Config) (lang default : String) : Option String :=
  (lookupSection cfg lang).map (fun sec => sec.compiler.getD default)

/-- Model of `get_version(lang, default)`: reads `config[lang]['Version']`,
falling back to `default` when the key is absent. -/
def get_version (cfg : Config) (lang default : String) : Option String :=
  (lookupSection cfg lang).map (fun sec => sec.version.getD default)

/-- Model of `get_lang_code(ext)`: maps a file extension and the global
configuration to a BOJ language code.  Returns the code together with the
list of `logger.error` messages emitted; `none` models an uncaught
exception.  In the source every `logger.error` branch falls through the
`if`/`elif` chain to the trailing `return 88`. -/
def get_lang_code (ext : String) (cfg : Config) : Option (Nat × List String) :=
  if ext = ".cc" ∨ ext = ".cpp" ∨ ext = ".c++" then
    match lookupSection cfg "C++" with
    | none => some (88, [])
    | some _ => do
      let compiler ← get_compiler cfg "C++" "g++"
      let version ← get_version cfg "C++" "C++14"
      if (strLower compiler) = "g++" then
        if strIn "11" version then some (49, [])
        else if strIn "14" version then some (88, [])
        else if strIn "17" version then some (84, [])
        else some (88, ["Invalid C++ version: " ++ version])
      else if (strLower compiler) = "clang" then
        if strIn "11" version then some (66, [])
        else if strIn "14" version then some (67, [])
        else if strIn "17" version then some (85, [])
        else some (88, ["Invalid C++ version: " ++ version])
      else some (88, ["Invalid C++ compiler: " ++ compiler])
  else if ext = ".c" then
    match lookupSection cfg "C" with
    | none => some (75, [])
    | some _ => do
      let compiler ← get_compiler cfg "C" "gcc"
      let version ← get_version cfg "C" "C11"
      if (strLower compiler) = "gcc" then
        if strIn "11" version then some (75, [])
        else if version = "C" then some (0, [])
        else some (88, ["Invalid C version: " ++ version])
      else if (strLower compiler) = "clang" then
        if strIn "11" version then some (77, [])
        else if version = "C" then some (59, [])
        else some (88, ["Invalid C version: " ++ version])
      else some (88, ["Invalid C compiler: " ++ compiler])
  else if ext = ".py" then
    match lookupSection cfg "Python" with
    | none => some (28, [])
    | some _ => do
      let compiler ← get_compiler cfg "Python" "CPython"
      let version ← get_version cfg "Python" "3"
      if (strLower compiler) = "cpython" then
        if strIn "2" version then some (6, [])
        else if strIn "3" version then some (28, [])
        else some (88, ["Invalid Python version: " ++ version])
      else if (strLower compiler) = "pypy" then
        if strIn "2" version then some (32, [])
        else if strIn "3" version then some (73, [])
        else some (88, ["Invalid Python version: " ++ version])
      else some (88, ["Invalid Python interpreter: " ++ compiler])
  else if ext = ".java" then
    match lookupSection cfg "Java" with
    | none => some (3, [])
    | some _ => do
      let compiler ← get_compiler cfg "Java" "Oracle"
      if (strLower compiler) = "oracle" then some (3, [])
      else if (strLower compiler) = "openjdk" then some (91, [])
      else some (88, ["Invalid Java compiler: " ++ compiler])
  else if ext = ".txt" then some (58, [])
  else if ext = ".js" then some (17, [])
  else if ext = ".aheui" then some (83, [])
  else some (88, [])

/-- The empty configuration: no language section present. -/
def emptyConfig : Config := ⟨none, none, none, none⟩

/-- A configuration with only a `C++` section carrying explicit
`Compiler` and `Version` keys. -/
def cppCfg (comp ver : String) : Config :=
  { emptyConfig with cpp := some ⟨some comp, some ver⟩ }

/-- A configuration with only a `C` section. -/
def cCfg (comp ver : String) : Config :=
  { emptyConfig with c := some ⟨some comp, some ver⟩ }

/-- A configuration with only a `Python` section. -/
def pyCfg (comp ver : String) : Config :=
  { emptyConfig with python := some ⟨some comp, some ver⟩ }

/-- A configuration with only a `Java` section (no `Version` key is ever
read for Java). -/
def javaCfg (comp : String) : Config :=
  { emptyConfig with java := some ⟨some comp, none⟩ }

/-- Colorama escape `Fore.GREEN`. -/
def foreGreen : String := "\x1b[32m"

/-- Colorama escape `Fore.RED`. -/
def foreRed : String := "\x1b[31m"

/-- Colorama escape `Fore.YELLOW`. -/
def foreYellow : String := "\x1b[33m"

/-- Colorama escape `Fore.BLUE`. -/
def foreBlue : String := "\x1b[34m"

/-- Colorama escape `Fore.CYAN`. -/
def foreCyan : String := "\x1b[36m"

/-- Colorama escape `Style.RESET_ALL`. -/
def styleReset : String := "\x1b[0m"

/-- Python `'%s' % x` formatting of an optional string: `None` prints as
the text `None`. -/
def fmtOptStr (o : Option String) : String := o.getD "None"

/-- The score-text regex `\d+점` (one or more digits followed by the char
`점`) matched against the whole string, as used by
`re.fullmatch(r'^\d+점$', text)` in `check_finished` (digits modelled as
ASCII digits). -/
def isScoreText (s : String) : Bool :=
  s.data.getLast? == some '점' && !s.data.dropLast.isEmpty
    && s.data.dropLast.all Char.isDigit

/-- Model of `re.match(r'^\d+점$', msg)` as used in `convert_msg`: unlike
`re.fullmatch`, the `$` anchor under `re.match` also matches just before a
single newline at the end of the string, so the pattern accepts one or
more digits then `점`, optionally followed by one trailing newline. -/
def matchScoreText (s : String) : Bool :=
  isScoreText s
    || (s.data.getLast? == some '\n' && isScoreText (String.mk s.data.dropLast))

/-- The leading digit run of a string, as extracted by
`re.match(r'\d+', msg)[0]` in the partial-score branch of `convert_msg`. -/
def scoreDigits (s : String) : String :=
  String.mk (s.data.takeWhile Char.isDigit)

/-- The fixed set of judge-native terminal result strings in
`check_finished`. -/
def terminal_results : List String :=
  ["맞았습니다!!",
   "출력 형식이 잘못되었습니다", "틀렸습니다", "시간 초과",
   "메모리 초과", "출력 초과", "런타임 에러", "컴파일 에러"]

/-- Model of `check_finished(text)`: true when the text matches `\d+점` in
full, or is one of the eight judge-native terminal strings. -/
def check_finished (text : String) : Bool :=
  if isScoreText text then true
  else terminal_results.contains text

/-- One step of Python's `str.replace` on character lists (fuel-indexed so
the function reduces by structural recursion; called with fuel equal to
the list length, which suffices because each recursive call shortens the
list).  Non-overlapping left-to-right replacement of a nonempty pattern,
exactly as `str.replace` behaves for the nonempty patterns used here. -/
def listReplaceFuel (pat rep : List Char) : Nat → List Char → List Char
  | 0, s => s
  | _ + 1, [] => []
  | fuel + 1, c :: t =>
    if pat.isPrefixOf (c :: t) && !pat.isEmpty then
      rep ++ listReplaceFuel pat rep fuel ((c :: t).drop pat.length)
    else
      c :: listReplaceFuel pat rep fuel t

/-- Python's `s.replace(pat, rep)` for nonempty `pat`. -/
def strReplace (s pat rep : String) : String :=
  String.mk (listReplaceFuel pat.data rep.data s.data.length s.data)

/-- The `conversion_table` dictionary of `convert_msg`, parameterised by the
`mem` and `rtime` arguments interpolated into the accepted entry. -/
def conversion_table (mem rtime : Option String) : List (String × String) :=
  [("맞았습니다!!", foreGreen ++ "AC (" ++ fmtOptStr mem ++ "KB, "
      ++ fmtOptStr rtime ++ "ms)"),
   ("출력 형식이 잘못되었습니다", foreRed ++ "PE"),
   ("틀렸습니다", foreRed ++ "WA"),
   ("시간 초과", foreRed ++ "TLE"),
   ("메모리 초과", foreRed ++ "MLE"),
   ("출력 초과", foreRed ++ "PLE"),
   ("런타임 에러", foreBlue ++ "RTE"),
   ("컴파일 에러", foreBlue ++ "Compile Error"),
   ("기다리는 중", foreYellow ++ "Waiting...")]

/-- Model of `convert_msg(msg, mem, rtime)`: the short colored display label
for a judge status string.  `none` models the `KeyError` raised when `msg`
reaches the dictionary lookup and is not one of its nine keys. -/
def convert_msg (msg : String) (mem rtime : Option String) : Option String :=
  if strIn "채점 준비 중" msg then
    some (foreYellow ++ "Preparing..." ++ styleReset)
  else if strIn "채점 중" msg then
    some (strReplace msg "채점 중" (foreYellow ++ "Judging...") ++ styleReset)
  else if matchScoreText msg then
    some (foreYellow ++ "Partial (" ++ scoreDigits msg ++ ")" ++ styleReset)
  else
    ((conversion_table mem rtime).lookup msg).map (fun label => label ++ styleReset)

/-- Python's `str.strip()` whitespace set. -/
def isPySpace (c : Char) : Bool :=
  c == ' ' || c == '\t' || c == '\n' || c == '\r' || c == '\x0b' || c == '\x0c'

/-- Python's `s.strip()`: drop leading and trailing whitespace. -/
def strStrip (s : String) : String :=
  String.mk (((s.data.dropWhile isPySpace).reverse.dropWhile isPySpace).reverse)

/-- The status page fetched by one iteration of `print_result`: what the
three scraping selectors find.  `result_text` is the `.string` of the inner
span of `span.result-text` when the chain succeeds (`none` models the
`AttributeError` from calling `.find`/`.string` on a `find` that returned
`None`); `memory` and `time` are the texts of the `td.memory` and `td.time`
cells when found. -/
structure PollPage where
  result_text : Option String
  memory : Option String
  time : Option String
deriving DecidableEq, Repr

/-- One iteration of the `print_result` loop body on a fetched page:
extract and strip the status text, extract memory and runtime, render the
label via `convert_msg`, and compute `check_finished` on the text, which
becomes the loop's `done` flag.  `none` models an uncaught exception in the
iteration (missing HTML structure or a `convert_msg` `KeyError`). -/
def poll_step (page : PollPage) : Option (String × Bool) := do
  let raw ← page.result_text
  let text := strStrip raw
  let mem ← page.memory
  let rtime ← page.time
  let printed ← convert_msg text (some mem) (some rtime)
  pure (printed, check_finished text)

/-- Observable outcome of running the `print_result` loop for a bounded
number of iterations. -/
inductive PollOutcome where
  /-- The fuel ran out with the loop still iterating. -/
  | running
  /-- The loop's `done` flag became true at iteration `n` and the loop
  exited. -/
  | finished (n : Nat)
  /-- Iteration `n` raised an exception. -/
  | crashed (n : Nat)
deriving DecidableEq, Repr

/-- Model of the `while not done` loop of `print_result`: `pages i` is the
status page fetched by iteration `i`; `fuel` bounds how many iterations we
observe (the source loop itself has no bound). -/
def print_result_run (pages : Nat → PollPage) : Nat → Nat → PollOutcome
  | 0, _ => .running
  | fuel + 1, i =>
    match poll_step (pages i) with
    | none => .crashed i
    | some (_, true) => .finished i
    | some (_, false) => print_result_run pages fuel (i + 1)

/-- Filesystem state relevant to `login`: whether the cookie file exists. -/
structure FileSystem where
  cookiefile : Bool
deriving DecidableEq, Repr

/-- Model of `save_cookie(sess)`: writes the cookie file (creating or
overwriting it). -/
def save_cookie (fs : FileSystem) : FileSystem :=
  { fs with cookiefile := true }

/-- Model of `os.remove(cookiefile_path)`: deletes the cookie file;
`none` models the `FileNotFoundError` raised when it does not exist. -/
def os_remove_cookiefile (fs : FileSystem) : Option FileSystem :=
  if fs.cookiefile then some { fs with cookiefile := false } else none

/-- Model of `login()`.  `authOk` is the result of `check_login()` — whether
the page fetched after posting the credentials contains the username
marker.  The source first saves the cookie unconditionally, then on
failure logs the error and removes the cookie file.  Returns the final
filesystem state and the list of `logger.error` messages emitted (the
messages a default-configured logger shows the user); `none` models an
uncaught exception. -/
def login (authOk : Bool) (fs : FileSystem) : Option (FileSystem × List String) :=
  let fs1 := save_cookie fs
  if authOk then
    some (fs1, [])
  else
    (os_remove_cookiefile fs1).map (fun fs2 => (fs2, ["Login failed"]))

/-- Splitting a character list at every character satisfying `p`, keeping
empty segments, as `re.split(r'\t|\n', ...)` does. -/
def listSplit (p : Char → Bool) : List Char → List (List Char)
  | [] => [[]]
  | c :: t =>
    let r := listSplit p t
    if p c then [] :: r
    else
      match r with
      | [] => [[c]]
      | h :: rest => (c :: h) :: rest

/-- Python's `re.split(r'\t|\n', s)`: split `s` at every tab or newline. -/
def splitTabNewline (s : String) : List String :=
  (listSplit (fun c => c == '\t' || c == '\n') s.data).map String.mk

/-- The `conversion_table` of `stats`: the fourteen recognized row labels
and their fixed printed translations. -/
def stats_table : List (String × String) :=
  [("랭킹", foreBlue ++ "Rank:\t\t" ++ styleReset),
   ("푼 문제", foreGreen ++ "Solved:\t\t" ++ styleReset),
   ("제출", foreYellow ++ "Submissions:\t" ++ styleReset),
   ("맞았습니다", foreGreen ++ "AC count:\t" ++ styleReset),
   ("출력 형식", foreRed ++ "PE count:\t" ++ styleReset),
   ("틀렸습니다", foreRed ++ "WA count:\t" ++ styleReset),
   ("시간 초과", foreRed ++ "TLE count:\t" ++ styleReset),
   ("컴파일 에러", foreRed ++ "Compile errors:\t" ++ styleReset),
   ("메모리 초과", foreRed ++ "MLE count:\t" ++ styleReset),
   ("출력 초과", foreRed ++ "PLE count:\t" ++ styleReset),
   ("런타임 에러", foreRed ++ "RTE count:\t" ++ styleReset),
   ("학교/회사", "Organization:\t"),
   ("대회 우승", foreGreen ++ "First place:\t" ++ styleReset),
   ("대회 준우승", foreCyan ++ "Second place:\t" ++ styleReset)]

/-- The value part of a printed stats line: the row's `td` text is stripped,
split at tabs and newlines, the empty segments dropped, and the rest joined
with a comma. -/
def render_stat_value (value : String) : String :=
  String.intercalate ", "
    ((splitTabNewline (strStrip value)).filter (fun seg => seg != ""))

/-- Model of the printing loop of `stats`: each row is the pair of its `th`
text (label) and `td` text (value); a row produces a printed line exactly
when its label is a key of `stats_table`, and the line is the translation
followed by the rendered value. -/
def stats_lines (rows : List (String × String)) : List String :=
  rows.filterMap (fun row =>
    (stats_table.lookup row.1).map (fun pfx => pfx ++ render_stat_value row.2))

/-- Helper: `List.contains` is false on an element that is not a member. -/
theorem contains_eq_false_of_not_mem {s : String} {l : List String}
    (h : s ∉ l) : l.contains s = false := by
  rw [← Bool.not_eq_true]
  intro hc
  exact h (List.mem_of_elem_eq_true hc)

/-- Helper: `List.lookup` is `none` when the key is not among the keys. -/
theorem lookup_eq_none_of_not_mem_keys {β : Type} {l : List (String × β)}
    {a : String} (h : a ∉ l.map Prod.fst) : l.lookup a = none := by
  induction l with
  | nil => rfl
  | cons p t ih =>
    obtain ⟨k, v⟩ := p
    simp only [List.map_cons, List.mem_cons] at h
    push_neg at h
    obtain ⟨h1, h2⟩ := h
    have hb : (a == k) = false := beq_eq_false_iff_ne.mpr h1
    simp [List.lookup, hb, ih h2]

end Boj

namespace Boj

/-- C1: for every (file extension, configuration) pair in the documented
mapping table, `get_lang_code` returns exactly the specified language code:
C++ (`.cc`/`.cpp`/`.c++`) with g++ gives 49/88/84 for C++11/C++14/C++17 and
with clang 66/67/85, with no C++ section 88; C (`.c`) with gcc gives 75 for
C11 and 0 for version `C`, with clang 77 and 59, with no C section 75;
Python (`.py`) with CPython gives 6/28 for versions 2/3 and with PyPy
32/73, with no Python section 28; Java (`.java`) gives 3 for Oracle and 91
for OpenJDK, with no Java section 3; `.txt` gives 58, `.js` gives 17,
`.aheui` gives 83; and any unrecognized extension gives 88. -/
theorem C1_get_lang_code_table :
    (get_lang_code ".cc" (cppCfg "g++" "C++11") = some (49, [])
      ∧ get_lang_code ".cpp" (cppCfg "g++" "C++14") = some (88, [])
      ∧ get_lang_code ".c++" (cppCfg "g++" "C++17") = some (84, [])
      ∧ get_lang_code ".cc" (cppCfg "clang" "C++11") = some (66, [])
      ∧ get_lang_code ".cpp" (cppCfg "clang" "C++14") = some (67, [])
      ∧ get_lang_code ".c++" (cppCfg "clang" "C++17") = some (85, [])
      ∧ get_lang_code ".cc" emptyConfig = some (88, [])
      ∧ get_lang_code ".cpp" emptyConfig = some (88, [])
      ∧ get_lang_code ".c++" emptyConfig = some (88, []))
    ∧ (get_lang_code ".c" (cCfg "gcc" "C11") = some (75, [])
      ∧ get_lang_code ".c" (cCfg "gcc" "C") = some (0, [])
      ∧ get_lang_code ".c" (cCfg "clang" "C11") = some (77, [])
      ∧ get_lang_code ".c" (cCfg "clang" "C") = some (59, [])
      ∧ get_lang_code ".c" emptyConfig = some (75, []))
    ∧ (get_lang_code ".py" (pyCfg "CPython" "2") = some (6, [])
      ∧ get_lang_code ".py" (pyCfg "CPython" "3") = some (28, [])
      ∧ get_lang_code ".py" (pyCfg "PyPy" "2") = some (32, [])
      ∧ get_lang_code ".py" (pyCfg "PyPy" "3") = some (73, [])
      ∧ get_lang_code ".py" emptyConfig = some (28, []))
    ∧ (get_lang_code ".java" (javaCfg "Oracle") = some (3, [])
      ∧ get_lang_code ".java" (javaCfg "OpenJDK") = some (91, [])
      ∧ get_lang_code ".java" emptyConfig = some (3, []))
    ∧ (∀ cfg : Config,
        get_lang_code ".txt" cfg = some (58, [])
        ∧ get_lang_code ".js" cfg = some (17, [])
        ∧ get_lang_code ".aheui" cfg = some (83, []))
    ∧ (∀ (ext : String) (cfg : Config),
        ext ∉ [".cc", ".cpp", ".c++", ".c", ".py", ".java",
               ".txt", ".js", ".aheui"] →
        get_lang_code ext cfg = some (88, [])) := by
  refine ⟨by decide, by decide, by decide, by decide, ?_, ?_⟩
  · intro cfg
    exact ⟨rfl, rfl, rfl⟩
  · intro ext cfg h
    simp only [List.mem_cons, List.not_mem_nil, or_false] at h
    push_neg at h
    obtain ⟨h1, h2, h3, h4, h5, h6, h7, h8, h9⟩ := h
    simp [get_lang_code, h1, h2, h3, h4, h5, h6, h7, h8, h9]

/-- Witness for C1 at concrete inputs: a fixed-code extension with an
arbitrary configuration, and an unrecognized extension. -/
theorem C1_get_lang_code_table_witness :
    get_lang_code ".txt" emptyConfig = some (58, [])
    ∧ get_lang_code ".rs" emptyConfig = some (88, []) :=
  ⟨(C1_get_lang_code_table.2.2.2.2.1 emptyConfig).1,
   C1_get_lang_code_table.2.2.2.2.2 ".rs" emptyConfig (by decide)⟩

end Boj

namespace Boj

/-- C2: `get_lang_code` never raises for any (extension, configuration)
input: it always returns some code, whenever it logs an error it returns
the global fallback 88, and when a configured compiler or version string
matches no accepted value it emits the error log and returns 88. -/
theorem C2_get_lang_code_never_raises :
    (∀ (ext : String) (cfg : Config), ∃ r : Nat × List String,
        get_lang_code ext cfg = some r ∧ (r.2 ≠ [] → r.1 = 88))
    ∧ (∀ (ext comp ver : String) (cfg : Config),
        (ext = ".cc" ∨ ext = ".cpp" ∨ ext = ".c++") →
        cfg.cpp = some ⟨some comp, some ver⟩ →
        strLower comp ≠ "g++" → strLower comp ≠ "clang" →
        get_lang_code ext cfg = some (88, ["Invalid C++ compiler: " ++ comp]))
    ∧ (∀ (ext comp ver : String) (cfg : Config),
        (ext = ".cc" ∨ ext = ".cpp" ∨ ext = ".c++") →
        cfg.cpp = some ⟨some comp, some ver⟩ →
        (strLower comp = "g++" ∨ strLower comp = "clang") →
        strIn "11" ver = false → strIn "14" ver = false →
        strIn "17" ver = false →
        get_lang_code ext cfg = some (88, ["Invalid C++ version: " ++ ver]))
    ∧ (∀ (comp ver : String) (cfg : Config),
        cfg.c = some ⟨some comp, some ver⟩ →
        strLower comp ≠ "gcc" → strLower comp ≠ "clang" →
        get_lang_code ".c" cfg = some (88, ["Invalid C compiler: " ++ comp]))
    ∧ (∀ (comp ver : String) (cfg : Config),
        cfg.c = some ⟨some comp, some ver⟩ →
        (strLower comp = "gcc" ∨ strLower comp = "clang") →
        strIn "11" ver = false → ver ≠ "C" →
        get_lang_code ".c" cfg = some (88, ["Invalid C version: " ++ ver]))
    ∧ (∀ (comp ver : String) (cfg : Config),
        cfg.python = some ⟨some comp, some ver⟩ →
        strLower comp ≠ "cpython" → strLower comp ≠ "pypy" →
        get_lang_code ".py" cfg
          = some (88, ["Invalid Python interpreter: " ++ comp]))
    ∧ (∀ (comp ver : String) (cfg : Config),
        cfg.python = some ⟨some comp, some ver⟩ →
        (strLower comp = "cpython" ∨ strLower comp = "pypy") →
        strIn "2" ver = false → strIn "3" ver = false →
        get_lang_code ".py" cfg
          = some (88, ["Invalid Python version: " ++ ver]))
    ∧ (∀ (comp : String) (v : Option String) (cfg : Config),
        cfg.java = some ⟨some comp, v⟩ →
        strLower comp ≠ "oracle" → strLower comp ≠ "openjdk" →
        get_lang_code ".java" cfg
          = some (88, ["Invalid Java compiler: " ++ comp])) := by
  refine ⟨?_, ?_, ?_, ?_, ?_, ?_, ?_, ?_⟩
  · intro ext cfg
    unfold get_lang_code
    by_cases h1 : ext = ".cc" ∨ ext = ".cpp" ∨ ext = ".c++"
    · rw [if_pos h1]
      cases hc : lookupSection cfg "C++" with
      | none => exact ⟨(88, []), rfl, by simp⟩
      | some sec =>
        simp [get_compiler, get_version, hc]
        split_ifs <;> exact ⟨_, _, rfl, by simp⟩
    · rw [if_neg h1]
      by_cases h2 : ext = ".c"
      · rw [if_pos h2]
        cases hc : lookupSection cfg "C" with
        | none => exact ⟨(75, []), rfl, by simp⟩
        | some sec =>
          simp [get_compiler, get_version, hc]
          split_ifs <;> exact ⟨_, _, rfl, by simp⟩
      · rw [if_neg h2]
        by_cases h3 : ext = ".py"
        · rw [if_pos h3]
          cases hc : lookupSection cfg "Python" with
          | none => exact ⟨(28, []), rfl, by simp⟩
          | some sec =>
            simp [get_compiler, get_version, hc]
            split_ifs <;> exact ⟨_, _, rfl, by simp⟩
        · rw [if_neg h3]
          by_cases h4 : ext = ".java"
          · rw [if_pos h4]
            cases hc : lookupSection cfg "Java" with
            | none => exact ⟨(3, []), rfl, by simp⟩
            | some sec =>
              simp [get_compiler, hc]
              split_ifs <;> exact ⟨_, _, rfl, by simp⟩
          · rw [if_neg h4]
            split_ifs <;> exact ⟨_, rfl, by simp⟩
  · intro ext comp ver cfg hext hc hg hcl
    rcases hext with rfl | rfl | rfl <;>
      simp [get_lang_code, lookupSection, get_compiler, get_version, hc,
        hg, hcl]
  · intro ext comp ver cfg hext hc hcomp h11 h14 h17
    rcases hext with rfl | rfl | rfl <;> rcases hcomp with hcomp | hcomp <;>
      simp [get_lang_code, lookupSection, get_compiler, get_version, hc,
        hcomp, h11, h14, h17]
  · intro comp ver cfg hc hg hcl
    simp [get_lang_code, lookupSection, get_compiler, get_version, hc,
      hg, hcl]
  · intro comp ver cfg hc hcomp h11 hC
    rcases hcomp with hcomp | hcomp <;>
      simp [get_lang_code, lookupSection, get_compiler, get_version, hc,
        hcomp, h11, hC]
  · intro comp ver cfg hc hg hcl
    simp [get_lang_code, lookupSection, get_compiler, get_version, hc,
      hg, hcl]
  · intro comp ver cfg hc hcomp h2 h3
    rcases hcomp with hcomp | hcomp <;>
      simp [get_lang_code, lookupSection, get_compiler, get_version, hc,
        hcomp, h2, h3]
  · intro comp v cfg hc hg hcl
    simp [get_lang_code, lookupSection, get_compiler, hc, hg, hcl]

/-- Witness for C2 at concrete inputs: an arbitrary extension returns some
code, and a malformed C++ version logs an error and yields 88. -/
theorem C2_get_lang_code_never_raises_witness :
    (∃ r : Nat × List String, get_lang_code ".zig" emptyConfig = some r
        ∧ (r.2 ≠ [] → r.1 = 88))
    ∧ get_lang_code ".cc" (cppCfg "g++" "latest")
        = some (88, ["Invalid C++ version: latest"]) :=
  ⟨C2_get_lang_code_never_raises.1 ".zig" emptyConfig,
   C2_get_lang_code_never_raises.2.2.1 ".cc" "g++" "latest"
     (cppCfg "g++" "latest") (Or.inl rfl) rfl (Or.inl (by decide))
     (by decide) (by decide) (by decide)⟩

end Boj

namespace Boj

/-- C3: `check_finished` is total and classifies exactly as documented: true
for every string matching the digits-then-`점` pattern and for each of the
eight judge-native terminal strings; false for every other string,
including the three non-terminal statuses. -/
theorem C3_check_finished_classification :
    (∀ s : String, isScoreText s = true → check_finished s = true)
    ∧ check_finished "맞았습니다!!" = true
    ∧ check_finished "출력 형식이 잘못되었습니다" = true
    ∧ check_finished "틀렸습니다" = true
    ∧ check_finished "시간 초과" = true
    ∧ check_finished "메모리 초과" = true
    ∧ check_finished "출력 초과" = true
    ∧ check_finished "런타임 에러" = true
    ∧ check_finished "컴파일 에러" = true
    ∧ check_finished "채점 준비 중" = false
    ∧ check_finished "채점 중" = false
    ∧ check_finished "기다리는 중" = false
    ∧ (∀ s : String, isScoreText s = false → s ∉ terminal_results →
        check_finished s = false) := by
  refine ⟨?_, by decide, by decide, by decide, by decide, by decide,
    by decide, by decide, by decide, by decide, by decide, by decide, ?_⟩
  · intro s h
    unfold check_finished
    rw [if_pos h]
  · intro s h1 h2
    unfold check_finished
    rw [if_neg (by simp [h1])]
    exact contains_eq_false_of_not_mem h2

/-- Witness for C3 at concrete inputs: a partial-score string is terminal
and an unknown status string is not. -/
theorem C3_check_finished_classification_witness :
    check_finished "100점" = true ∧ check_finished "서버 점검" = false :=
  ⟨C3_check_finished_classification.1 "100점" (by decide),
   C3_check_finished_classification.2.2.2.2.2.2.2.2.2.2.2.2 "서버 점검"
     (by decide) (by decide)⟩

/-- C4: `convert_msg` is a pure function of (status text, memory, runtime)
and produces the exact documented label for each known status: `55점`
renders as Partial (55); Accepted renders with memory and runtime
interpolated (for memory 1024 and runtime 12, `AC (1024KB, 12ms)`); the
other terminal strings map to PE, WA, TLE, MLE, PLE, RTE and Compile
Error; and the two progress strings render with the in-progress label —
each up to the fixed terminal color codes. -/
theorem C4_convert_msg_labels :
    convert_msg "55점" none none
      = some (foreYellow ++ "Partial (55)" ++ styleReset)
    ∧ convert_msg "맞았습니다!!" (some "1024") (some "12")
      = some (foreGreen ++ "AC (1024KB, 12ms)" ++ styleReset)
    ∧ (∀ mem rtime : String,
        convert_msg "맞았습니다!!" (some mem) (some rtime)
          = some (foreGreen ++ "AC (" ++ mem ++ "KB, " ++ rtime ++ "ms)"
              ++ styleReset))
    ∧ (∀ mem rtime : Option String,
        convert_msg "출력 형식이 잘못되었습니다" mem rtime
          = some (foreRed ++ "PE" ++ styleReset)
        ∧ convert_msg "틀렸습니다" mem rtime
          = some (foreRed ++ "WA" ++ styleReset)
        ∧ convert_msg "시간 초과" mem rtime
          = some (foreRed ++ "TLE" ++ styleReset)
        ∧ convert_msg "메모리 초과" mem rtime
          = some (foreRed ++ "MLE" ++ styleReset)
        ∧ convert_msg "출력 초과" mem rtime
          = some (foreRed ++ "PLE" ++ styleReset)
        ∧ convert_msg "런타임 에러" mem rtime
          = some (foreBlue ++ "RTE" ++ styleReset)
        ∧ convert_msg "컴파일 에러" mem rtime
          = some (foreBlue ++ "Compile Error" ++ styleReset)
        ∧ convert_msg "채점 준비 중" mem rtime
          = some (foreYellow ++ "Preparing..." ++ styleReset)
        ∧ convert_msg "채점 중" mem rtime
          = some (foreYellow ++ "Judging..." ++ styleReset)) := by
  refine ⟨by decide, by decide, ?_, ?_⟩
  · intro mem rtime
    rfl
  · intro mem rtime
    exact ⟨rfl, rfl, rfl, rfl, rfl, rfl, rfl, rfl, rfl⟩

end Boj

namespace Boj

/-- C5 counterexample: the claim that for every configured version string
containing an accepted marker the code of that marker is returned fails
when a version contains several markers: with g++ the version string
containing both markers also contains the marker whose table code is 88,
yet `get_lang_code` returns 49, the code of the marker tested first. -/
theorem C5_substring_match_counterexample :
    strIn "14" "11 14" = true
    ∧ get_lang_code ".cc" (cppCfg "g++" "11 14") = some (49, [])
    ∧ get_lang_code ".cc" (cppCfg "g++" "11 14") ≠ some (88, []) := by decide

/-- C5 amended: when the language section is present, the compiler name is
matched case-insensitively, and the version markers are tested by substring
containment in a fixed order (11, then 14, then 17 for C++; 11, then the
exact string C, for C): the code returned is that of the first marker test
that succeeds. -/
theorem C5_marker_priority :
    (∀ (ext comp ver : String) (cfg : Config),
        (ext = ".cc" ∨ ext = ".cpp" ∨ ext = ".c++") →
        cfg.cpp = some ⟨some comp, some ver⟩ →
        (strLower comp = "g++" →
          (strIn "11" ver = true → get_lang_code ext cfg = some (49, []))
          ∧ (strIn "11" ver = false → strIn "14" ver = true →
              get_lang_code ext cfg = some (88, []))
          ∧ (strIn "11" ver = false → strIn "14" ver = false →
              strIn "17" ver = true → get_lang_code ext cfg = some (84, [])))
        ∧ (strLower comp = "clang" →
          (strIn "11" ver = true → get_lang_code ext cfg = some (66, []))
          ∧ (strIn "11" ver = false → strIn "14" ver = true →
              get_lang_code ext cfg = some (67, []))
          ∧ (strIn "11" ver = false → strIn "14" ver = false →
              strIn "17" ver = true → get_lang_code ext cfg = some (85, []))))
    ∧ (∀ (comp ver : String) (cfg : Config),
        cfg.c = some ⟨some comp, some ver⟩ →
        (strLower comp = "gcc" →
          (strIn "11" ver = true → get_lang_code ".c" cfg = some (75, []))
          ∧ (strIn "11" ver = false → ver = "C" →
              get_lang_code ".c" cfg = some (0, [])))
        ∧ (strLower comp = "clang" →
          (strIn "11" ver = true → get_lang_code ".c" cfg = some (77, []))
          ∧ (strIn "11" ver = false → ver = "C" →
              get_lang_code ".c" cfg = some (59, [])))) := by
  constructor
  · intro ext comp ver cfg hext hc
    rcases hext with rfl | rfl | rfl <;>
      refine ⟨fun hg =>
          ⟨fun h11 => ?_, fun h11 h14 => ?_, fun h11 h14 h17 => ?_⟩,
        fun hcl =>
          ⟨fun h11 => ?_, fun h11 h14 => ?_, fun h11 h14 h17 => ?_⟩⟩ <;>
      simp_all [get_lang_code, lookupSection, get_compiler, get_version]
  · intro comp ver cfg hc
    refine ⟨fun hg => ⟨fun h11 => ?_, fun h11 hC => ?_⟩,
      fun hcl => ⟨fun h11 => ?_, fun h11 hC => ?_⟩⟩ <;>
      simp_all [get_lang_code, lookupSection, get_compiler, get_version]

/-- Witness for C5 at a concrete input: a capitalized clang with a C++17
version resolves to 85 through the amended priority rule. -/
theorem C5_marker_priority_witness :
    get_lang_code ".cpp" (cppCfg "Clang" "C++17") = some (85, []) :=
  ((C5_marker_priority.1 ".cpp" "Clang" "C++17" (cppCfg "Clang" "C++17")
      (Or.inr (Or.inl rfl)) rfl).2 (by decide)).2.2
    (by decide) (by decide) (by decide)

/-- C6: when interactive login fails (the page fetched after posting the
credentials contains no username marker), `login` reports the failure to
the user, the persisted cookie file does not exist afterwards, and no
exception propagates — for either prior state of the cookie file. -/
theorem C6_login_failure_cleanup :
    ∀ fs : FileSystem,
      login false fs = some (⟨false⟩, ["Login failed"]) := by
  intro fs
  rfl

/-- Witness for C6 at a concrete input: a pre-existing cookie file is
removed on authentication failure. -/
theorem C6_login_failure_cleanup_witness :
    login false ⟨true⟩ = some (⟨false⟩, ["Login failed"]) :=
  C6_login_failure_cleanup ⟨true⟩

end Boj

namespace Boj

/-- C7: the polling loop of `print_result` exits after an iteration exactly
when the status text fetched in that iteration is classified terminal by
`check_finished`: every completed iteration's `done` flag is
`check_finished` of the stripped status text, a run that finishes does so
at the first terminal status with all earlier statuses non-terminal, a
terminal status makes the loop exit at that iteration, and when every
fetched status is non-terminal the loop is still running after any number
of iterations. -/
theorem C7_poll_until_terminal :
    (∀ (page : PollPage) (msg : String) (b : Bool),
        poll_step page = some (msg, b) →
        ∃ raw, page.result_text = some raw ∧ b = check_finished (strStrip raw))
    ∧ (∀ (pages : Nat → PollPage) (fuel i n : Nat),
        print_result_run pages fuel i = .finished n →
        (∃ msg, poll_step (pages n) = some (msg, true))
        ∧ ∀ j, i ≤ j → j < n → ∃ msg, poll_step (pages j) = some (msg, false))
    ∧ (∀ (pages : Nat → PollPage) (fuel i : Nat) (msg : String),
        poll_step (pages i) = some (msg, true) →
        print_result_run pages (fuel + 1) i = .finished i)
    ∧ (∀ pages : Nat → PollPage,
        (∀ i, ∃ msg, poll_step (pages i) = some (msg, false)) →
        ∀ fuel i, print_result_run pages fuel i = .running) := by
  refine ⟨?_, ?_, ?_, ?_⟩
  · intro page msg b h
    unfold poll_step at h
    cases hr : page.result_text with
    | none => rw [hr] at h; simp at h
    | some raw =>
      refine ⟨raw, rfl, ?_⟩
      rw [hr] at h
      cases hm : page.memory with
      | none => rw [hm] at h; simp at h
      | some mem =>
        rw [hm] at h
        cases ht : page.time with
        | none => rw [ht] at h; simp at h
        | some rtime =>
          rw [ht] at h
          simp at h
          cases hcv : convert_msg (strStrip raw) (some mem) (some rtime) with
          | none => rw [hcv] at h; simp at h
          | some lbl =>
            rw [hcv] at h
            simp at h
            exact h.2.symm
  · intro pages fuel
    induction fuel with
    | zero =>
      intro i n h
      exact absurd h (by simp [print_result_run])
    | succ f ih =>
      intro i n h
      unfold print_result_run at h
      cases hp : poll_step (pages i) with
      | none => rw [hp] at h; cases h
      | some pr =>
        obtain ⟨msg, b⟩ := pr
        rw [hp] at h
        cases b with
        | true =>
          cases h
          exact ⟨⟨msg, hp⟩, fun j hij hjn => absurd hjn (by omega)⟩
        | false =>
          obtain ⟨hterm, hall⟩ := ih (i + 1) n h
          refine ⟨hterm, fun j hij hjn => ?_⟩
          rcases Nat.eq_or_lt_of_le hij with rfl | hlt
          · exact ⟨msg, hp⟩
          · exact hall j hlt hjn
  · intro pages fuel i msg h
    unfold print_result_run
    rw [h]
  · intro pages hall fuel
    induction fuel with
    | zero => intro i; rfl
    | succ f ih =>
      intro i
      obtain ⟨msg, hp⟩ := hall i
      unfold print_result_run
      rw [hp]
      exact ih (i + 1)

/-- Witness for C7 at concrete inputs: a loop seeing only the Judging
status is still running after five iterations, and a loop seeing the
Accepted status finishes at its first iteration. -/
theorem C7_poll_until_terminal_witness :
    print_result_run (fun _ => ⟨some "채점 중", some "0", some "0"⟩) 5 0
      = .running
    ∧ print_result_run
        (fun _ => ⟨some "맞았습니다!!", some "1024", some "12"⟩) 7 0
      = .finished 0 :=
  ⟨C7_poll_until_terminal.2.2.2 (fun _ => ⟨some "채점 중", some "0", some "0"⟩)
     (fun _ => ⟨foreYellow ++ "Judging..." ++ styleReset, rfl⟩) 5 0,
   C7_poll_until_terminal.2.2.1
     (fun _ => ⟨some "맞았습니다!!", some "1024", some "12"⟩) 6 0
     (foreGreen ++ "AC (1024KB, 12ms)" ++ styleReset) (by decide)⟩

/-- C8 counterexample: when the result-text selector finds nothing, the
iteration does not complete and the loop does not poll again: `poll_step`
returns `none` (the modelled AttributeError) and the loop run crashes at
that iteration. -/
theorem C8_missing_html_counterexample :
    poll_step ⟨none, some "0", some "0"⟩ = none
    ∧ print_result_run (fun _ => ⟨none, some "0", some "0"⟩) 3 0
      = .crashed 0 := by decide

/-- C8 amended: if the expected HTML structure is absent from the fetched
status page (the result-text selector finds nothing), the iteration raises
the modelled AttributeError instead of completing, and the polling loop
stops crashed at that iteration rather than treating it as a transient
non-terminal state and polling again. -/
theorem C8_missing_html_crashes :
    ∀ (pages : Nat → PollPage) (fuel i : Nat),
      (pages i).result_text = none →
      poll_step (pages i) = none
      ∧ print_result_run pages (fuel + 1) i = .crashed i := by
  intro pages fuel i h
  have hp : poll_step (pages i) = none := by simp [poll_step, h]
  refine ⟨hp, ?_⟩
  unfold print_result_run
  rw [hp]

/-- Witness for C8 at a concrete input: a page with no result-text node
crashes the first iteration. -/
theorem C8_missing_html_crashes_witness :
    poll_step ⟨none, none, none⟩ = none
    ∧ print_result_run (fun _ => ⟨none, none, none⟩) 1 0 = .crashed 0 :=
  C8_missing_html_crashes (fun _ => ⟨none, none, none⟩) 0 0 rfl

end Boj

namespace Boj

/-- C9: a row of the profile stats table produces a printed line exactly
when its label is one of the fourteen known labels: a recognized row prints
its fixed translation followed by the comma-joined non-empty
tab/newline-separated segments of the stripped value, an unrecognized row
is silently skipped, and the row with label 푼 문제 and value 37 prints as
the Solved line. -/
theorem C9_stats_rows :
    (∀ (label value : String) (rows : List (String × String)),
        stats_table.lookup label = none →
        stats_lines ((label, value) :: rows) = stats_lines rows)
    ∧ (∀ (label value pfx : String) (rows : List (String × String)),
        stats_table.lookup label = some pfx →
        stats_lines ((label, value) :: rows)
          = (pfx ++ render_stat_value value) :: stats_lines rows)
    ∧ stats_table.map Prod.fst
      = ["랭킹", "푼 문제", "제출", "맞았습니다", "출력 형식", "틀렸습니다",
         "시간 초과", "컴파일 에러", "메모리 초과", "출력 초과", "런타임 에러",
         "학교/회사", "대회 우승", "대회 준우승"]
    ∧ stats_table.length = 14
    ∧ stats_lines [("푼 문제", "37")]
      = [foreGreen ++ "Solved:\t\t" ++ styleReset ++ "37"] := by
  refine ⟨?_, ?_, by decide, by decide, by decide⟩
  · intro label value rows h
    simp [stats_lines, h]
  · intro label value pfx rows h
    simp [stats_lines, h]

/-- Witness for C9 at a concrete input: the Rank row prints through the
recognized-label clause. -/
theorem C9_stats_rows_witness :
    stats_lines [("랭킹", "85")]
      = [foreBlue ++ "Rank:\t\t" ++ styleReset ++ render_stat_value "85"] :=
  C9_stats_rows.2.1 "랭킹" "85" (foreBlue ++ "Rank:\t\t" ++ styleReset) []
    (by decide)

/-- C10 counterexample: a score text with one trailing newline satisfies
every condition of the claim as stated — it contains neither progress
marker, is not digits followed by `점` (the whole-string pattern), and is
not one of the nine table keys — yet `convert_msg` returns the Partial
label rather than raising: the `$` of `re.match(r'^\d+점$', ...)` accepts
the trailing newline. -/
theorem C10_trailing_newline_counterexample :
    isScoreText "55점\n" = false
    ∧ strIn "채점 준비 중" "55점\n" = false
    ∧ strIn "채점 중" "55점\n" = false
    ∧ "55점\n" ∉ (conversion_table none none).map Prod.fst
    ∧ convert_msg "55점\n" none none
      = some (foreYellow ++ "Partial (55)" ++ styleReset)
    ∧ convert_msg "55점\n" none none ≠ none := by decide

/-- C10 amended: `convert_msg` is partial while `check_finished` is total:
for every status string that contains neither progress marker, does not
match `re.match(r'^\d+점$', ...)` — that is, is not digits followed by
`점`, optionally followed by a single trailing newline — and is not one
of the nine keys of the conversion table, the dictionary lookup raises a
KeyError (modelled as `none`) instead of returning a label, whereas
`check_finished` returns a boolean for every string. -/
theorem C10_convert_msg_partiality :
    (∀ (msg : String) (mem rtime : Option String),
        strIn "채점 준비 중" msg = false → strIn "채점 중" msg = false →
        matchScoreText msg = false →
        msg ∉ (conversion_table mem rtime).map Prod.fst →
        convert_msg msg mem rtime = none)
    ∧ (∀ mem rtime : Option String,
        (conversion_table mem rtime).map Prod.fst
          = ["맞았습니다!!", "출력 형식이 잘못되었습니다", "틀렸습니다",
             "시간 초과", "메모리 초과", "출력 초과", "런타임 에러",
             "컴파일 에러", "기다리는 중"])
    ∧ (∀ s : String, check_finished s = true ∨ check_finished s = false) := by
  refine ⟨?_, ?_, ?_⟩
  · intro msg mem rtime h1 h2 h3 h4
    unfold convert_msg
    rw [if_neg (by simp [h1]), if_neg (by simp [h2]), if_neg (by simp [h3]),
      lookup_eq_none_of_not_mem_keys h4]
    rfl
  · intro mem rtime
    rfl
  · intro s
    exact Bool.eq_false_or_eq_true (check_finished s)

/-- Witness for C10 at a concrete input: an unknown status string reaches
the dictionary lookup and raises. -/
theorem C10_convert_msg_partiality_witness :
    convert_msg "기다리다" none none = none :=
  C10_convert_msg_partiality.1 "기다리다" none none (by decide) (by decide)
    (by decide) (by decide)

end Boj

namespace Boj

/-- Witness for C4 at a concrete input: the Accepted label with memory and
runtime interpolated. -/
theorem C4_convert_msg_labels_witness :
    convert_msg "맞았습니다!!" (some "2020") (some "36")
      = some (foreGreen ++ "AC (2020KB, 36ms)" ++ styleReset) :=
  C4_convert_msg_labels.2.2.1 "2020" "36"

end Boj
